import Mathlib

/-
Verification of the catch-zone game engine (src/js/gameEngine.js).

The engine state and its operations are embedded shallowly: JS numbers are
modelled as exact rationals, the randomized draws of `Math.random()` are
passed in as explicit oracle inputs, and the fire-and-forget callbacks
(`onScoreChange`, `onGameEnd`) are modelled as an append-only event log on
the state, one event per callback invocation.
-/

/-- Horizontal lane: "LEFT", "CENTER", "RIGHT" in the source. -/
inductive Zone where
  | left
  | center
  | right
deriving DecidableEq, Repr

/-- Item kind: 'apple', 'pear', 'orange', 'bomb' in the source. -/
inductive ItemType where
  | apple
  | pear
  | orange
  | bomb
deriving DecidableEq, Repr

/-- One callback invocation: `onScoreChange(score, level, missCount)` or
`onGameEnd(score, level, reason)`. -/
inductive Event where
  | change (score level missCount : Nat)
  | gameEnd (score level : Nat) (reason : String)
deriving DecidableEq, Repr

/-- A falling item, as pushed by `spawnItem`:
`{ type, zone, y, caught, processed }`. -/
structure Item where
  type : ItemType
  zone : Zone
  y : ℚ
  caught : Bool
  processed : Bool
deriving DecidableEq, Repr

/-- The mutable fields of the `GameEngine` class, plus the event log. -/
structure Engine where
  isGameActive : Bool
  score : Nat
  level : Nat
  missCount : Nat
  levelDuration : ℚ
  currentLevelTime : ℚ
  baseDropTime : ℚ
  currentDropTime : ℚ
  items : List Item
  lastSpawnTime : ℚ
  nextSpawnInterval : ℚ
  basketPosition : Zone
  lastTime : ℚ
  events : List Event
deriving DecidableEq, Repr

/-- The random draws consumed by one `update` call that spawns an item:
the `Math.random()` value deciding the item type, the index
`Math.floor(Math.random() * 3)` deciding the zone, and the `Math.random()`
value used by `scheduleNextSpawn`. -/
structure SpawnInput where
  typeRand : ℚ
  zoneIndex : Fin 3
  intervalRand : ℚ
deriving DecidableEq

/-- Reason string passed to `gameOver` on a bomb catch. -/
def bombReason : String := "폭탄을 건드렸습니다!"

/-- Reason string passed to `gameOver` on the second fruit miss. -/
def missReason : String := "과일을 2놓쳐서 게임 오버!"

/-- Per-kind reward of `handleCatch`: apple 100, pear 150, orange 200
(the `let points = 0` default is never reached for a fruit). -/
def catchPoints : ItemType → Nat
  | ItemType.apple => 100
  | ItemType.pear => 150
  | ItemType.orange => 200
  | ItemType.bomb => 0

/-- `getRandomItemType`: r < 0.2 bomb, r < 0.6 apple, r < 0.85 pear,
else orange. -/
def getRandomItemType (r : ℚ) : ItemType :=
  if r < 0.2 then ItemType.bomb
  else if r < 0.6 then ItemType.apple
  else if r < 0.85 then ItemType.pear
  else ItemType.orange

/-- `zones[i]` for `zones = ["LEFT", "CENTER", "RIGHT"]`. -/
def zoneOfIndex (i : Fin 3) : Zone :=
  if i.val = 0 then Zone.left
  else if i.val = 1 then Zone.center
  else Zone.right

/-- The drop-time formula of `updateDropTime`:
`Math.max(0.5, 2.0 - (level - 1) * 0.2)`. -/
def dropTimeFormula (L : Nat) : ℚ :=
  max 0.5 (2.0 - ((L : ℚ) - 1) * 0.2)

namespace Engine

/-- `reset()`: all fields back to their initial values; `lastTime` and the
callback slots (here: the event log) are untouched by the source `reset`. -/
def reset (e : Engine) : Engine :=
  { isGameActive := false
    score := 0
    level := 1
    missCount := 0
    levelDuration := 20
    currentLevelTime := 0
    baseDropTime := 2.0
    currentDropTime := 2.0
    items := []
    lastSpawnTime := 0
    nextSpawnInterval := 0
    basketPosition := Zone.center
    lastTime := e.lastTime
    events := e.events }

/-- The state right after the constructor (which calls `reset()`). -/
def init : Engine :=
  { isGameActive := false
    score := 0
    level := 1
    missCount := 0
    levelDuration := 20
    currentLevelTime := 0
    baseDropTime := 2.0
    currentDropTime := 2.0
    items := []
    lastSpawnTime := 0
    nextSpawnInterval := 0
    basketPosition := Zone.center
    lastTime := 0
    events := [] }

/-- `notifyChange()`: invoke `onScoreChange(score, level, missCount)`. -/
def notifyChange (e : Engine) : Engine :=
  { e with events := e.events ++ [Event.change e.score e.level e.missCount] }

/-- `gameOver(reason)`: deactivate and invoke
`onGameEnd(score, level, reason)`. -/
def gameOver (e : Engine) (reason : String) : Engine :=
  { e with
    isGameActive := false
    events := e.events ++ [Event.gameEnd e.score e.level reason] }

/-- `updateDropTime()`: `currentDropTime = max(0.5, 2.0 - (level-1)*0.2)`. -/
def updateDropTime (e : Engine) : Engine :=
  { e with currentDropTime := dropTimeFormula e.level }

/-- `scheduleNextSpawn()`: interval drawn from
`[currentDropTime*600, currentDropTime*800)`; `r` is the uniform draw. -/
def scheduleNextSpawn (e : Engine) (r : ℚ) : Engine :=
  let mn := e.currentDropTime * 600
  let mx := e.currentDropTime * 800
  { e with nextSpawnInterval := r * (mx - mn) + mn }

/-- `spawnItem()`: push a fresh item at `y = 0`. -/
def spawnItem (e : Engine) (inp : SpawnInput) : Engine :=
  { e with
    items := e.items ++
      [{ type := getRandomItemType inp.typeRand
         zone := zoneOfIndex inp.zoneIndex
         y := 0
         caught := false
         processed := false }] }

/-- `levelUp()`: increment level, reset the level timer, recompute the drop
time, notify. -/
def levelUp (e : Engine) : Engine :=
  (({ e with level := e.level + 1, currentLevelTime := 0 }).updateDropTime).notifyChange

/-- `handleCatch(item)`: bomb ends the game (the early `return` skips
`item.caught = true`); a fruit is marked caught and scores its reward. -/
def handleCatch (e : Engine) (it : Item) : Engine × Item :=
  if it.type = ItemType.bomb then
    (e.gameOver bombReason, it)
  else
    let it1 := { it with caught := true }
    let e1 := { e with score := e.score + catchPoints it.type }
    (e1.notifyChange, it1)

/-- `handleMiss(item)`: increment `missCount`, notify, game over once
`missCount >= 2` (the `missCount === 1` branch of the source is a no-op). -/
def handleMiss (e : Engine) : Engine :=
  let e1 := { e with missCount := e.missCount + 1 }
  let e2 := e1.notifyChange
  if 2 ≤ e2.missCount then e2.gameOver missReason else e2

/-- The body of the `forEach` in `checkCollisions`, for one item:
skip caught/processed items; in the catch window `[0.85, 1.0)` a
zone-matched item is handed to `handleCatch`; at `y >= 1.0` fruits are
handed to `handleMiss` and the item is marked processed. -/
def checkItem (e : Engine) (it : Item) : Engine × Item :=
  if it.caught || it.processed then (e, it)
  else if (0.85 : ℚ) ≤ it.y ∧ it.y < 1 then
    if it.zone = e.basketPosition then e.handleCatch it else (e, it)
  else if (1 : ℚ) ≤ it.y then
    let e1 := if it.type = ItemType.bomb then e else e.handleMiss
    (e1, { it with processed := true })
  else (e, it)

/-- The `forEach` of `checkCollisions` over a list of items, threading the
engine scalars through and returning the items with their in-place
mutations. -/
def checkCollisionsAux : Engine → List Item → Engine × List Item
  | e, [] => (e, [])
  | e, it :: rest =>
      let p := e.checkItem it
      let q := checkCollisionsAux p.1 rest
      (q.1, p.2 :: q.2)

/-- `checkCollisions()`. -/
def checkCollisions (e : Engine) : Engine :=
  let p := checkCollisionsAux e e.items
  { p.1 with items := p.2 }

end Engine

/-- Step 3 of `update`: `item.y += (1.0 / currentDropTime) * deltaTime`
for every item. -/
def moveItems (d dt : ℚ) (l : List Item) : List Item :=
  l.map fun it => { it with y := it.y + 1 / d * dt }

/-- Step 5 of `update`: keep `item.y <= 1.2 && !item.caught`. -/
def removeOffscreen (l : List Item) : List Item :=
  l.filter fun it => decide (it.y ≤ 1.2) && !it.caught

namespace Engine

/-- `update(timestamp)` up to and including collision resolution (steps
1-4): level timer and possible level-up, spawn check, motion, collisions. -/
def updateCore (e : Engine) (t : ℚ) (inp : SpawnInput) : Engine :=
  let dt := (t - e.lastTime) / 1000
  let e1 := { e with lastTime := t, currentLevelTime := e.currentLevelTime + dt }
  let e2 := if e1.levelDuration ≤ e1.currentLevelTime then e1.levelUp else e1
  let e3 :=
    if e2.lastSpawnTime + e2.nextSpawnInterval < t then
      ({ e2.spawnItem inp with lastSpawnTime := t }).scheduleNextSpawn inp.intervalRand
    else e2
  let e4 := { e3 with items := moveItems e3.currentDropTime dt e3.items }
  e4.checkCollisions

/-- `update(timestamp)`: no-op while inactive, otherwise steps 1-4 followed
by the off-screen/caught garbage collection. -/
def update (e : Engine) (t : ℚ) (inp : SpawnInput) : Engine :=
  if e.isGameActive then
    let c := e.updateCore t inp
    { c with items := removeOffscreen c.items }
  else e

/-- `start()`: reset, activate, recompute drop time, schedule the first
spawn (`r` is its uniform draw), record the clock origin `t`. -/
def start (e : Engine) (t r : ℚ) : Engine :=
  let e1 := { e.reset with isGameActive := true }
  let e2 := (e1.updateDropTime).scheduleNextSpawn r
  { e2 with lastTime := t }

/-- `stop()`. -/
def stop (e : Engine) : Engine :=
  { e with isGameActive := false }

/-- `setBasketPose(poseLabel)` for a label that is one of the three valid
zones (an invalid label leaves the state unchanged and is not modelled). -/
def setBasketPose (e : Engine) (z : Zone) : Engine :=
  { e with basketPosition := z }

end Engine

/-- One externally triggered engine operation, with its oracle inputs. -/
inductive Op where
  | start (t r : ℚ)
  | stop
  | setPose (z : Zone)
  | update (t : ℚ) (inp : SpawnInput)
deriving DecidableEq

/-- Apply one operation. -/
def Engine.stepOp (e : Engine) : Op → Engine
  | Op.start t r => e.start t r
  | Op.stop => e.stop
  | Op.setPose z => e.setBasketPose z
  | Op.update t inp => e.update t inp

/-- The engine state reached from the constructor by a sequence of
operations. -/
def runOps (ops : List Op) : Engine :=
  ops.foldl Engine.stepOp Engine.init

/-- Number of `onGameEnd` invocations recorded in an event log. -/
def gameEndCount (l : List Event) : Nat :=
  (l.filter fun ev =>
    match ev with
    | Event.gameEnd _ _ _ => true
    | _ => false).length

section FieldLemmas

variable (e : Engine)

@[simp] lemma notifyChange_score : (e.notifyChange).score = e.score := rfl
@[simp] lemma notifyChange_level : (e.notifyChange).level = e.level := rfl
@[simp] lemma notifyChange_missCount : (e.notifyChange).missCount = e.missCount := rfl
@[simp] lemma notifyChange_isGameActive : (e.notifyChange).isGameActive = e.isGameActive := rfl
@[simp] lemma notifyChange_currentDropTime : (e.notifyChange).currentDropTime = e.currentDropTime := rfl

@[simp] lemma gameOver_score (r : String) : (e.gameOver r).score = e.score := rfl
@[simp] lemma gameOver_missCount (r : String) : (e.gameOver r).missCount = e.missCount := rfl
@[simp] lemma gameOver_isGameActive (r : String) : (e.gameOver r).isGameActive = false := rfl
@[simp] lemma gameOver_currentDropTime (r : String) : (e.gameOver r).currentDropTime = e.currentDropTime := rfl

@[simp] lemma updateDropTime_score : (e.updateDropTime).score = e.score := rfl
@[simp] lemma updateDropTime_missCount : (e.updateDropTime).missCount = e.missCount := rfl
@[simp] lemma updateDropTime_isGameActive : (e.updateDropTime).isGameActive = e.isGameActive := rfl
@[simp] lemma updateDropTime_currentDropTime :
    (e.updateDropTime).currentDropTime = dropTimeFormula e.level := rfl

@[simp] lemma scheduleNextSpawn_score (r : ℚ) : (e.scheduleNextSpawn r).score = e.score := rfl
@[simp] lemma scheduleNextSpawn_missCount (r : ℚ) :
    (e.scheduleNextSpawn r).missCount = e.missCount := rfl
@[simp] lemma scheduleNextSpawn_isGameActive (r : ℚ) :
    (e.scheduleNextSpawn r).isGameActive = e.isGameActive := rfl
@[simp] lemma scheduleNextSpawn_currentDropTime (r : ℚ) :
    (e.scheduleNextSpawn r).currentDropTime = e.currentDropTime := rfl

@[simp] lemma spawnItem_score (inp : SpawnInput) : (e.spawnItem inp).score = e.score := rfl
@[simp] lemma spawnItem_missCount (inp : SpawnInput) :
    (e.spawnItem inp).missCount = e.missCount := rfl
@[simp] lemma spawnItem_isGameActive (inp : SpawnInput) :
    (e.spawnItem inp).isGameActive = e.isGameActive := rfl
@[simp] lemma spawnItem_currentDropTime (inp : SpawnInput) :
    (e.spawnItem inp).currentDropTime = e.currentDropTime := rfl

@[simp] lemma levelUp_score : (e.levelUp).score = e.score := rfl
@[simp] lemma levelUp_missCount : (e.levelUp).missCount = e.missCount := rfl
@[simp] lemma levelUp_isGameActive : (e.levelUp).isGameActive = e.isGameActive := rfl
@[simp] lemma levelUp_level : (e.levelUp).level = e.level + 1 := rfl
@[simp] lemma levelUp_currentDropTime :
    (e.levelUp).currentDropTime = dropTimeFormula (e.level + 1) := rfl

@[simp] lemma start_score (t r : ℚ) : (e.start t r).score = 0 := rfl
@[simp] lemma start_missCount (t r : ℚ) : (e.start t r).missCount = 0 := rfl
@[simp] lemma start_isGameActive (t r : ℚ) : (e.start t r).isGameActive = true := rfl
@[simp] lemma start_level (t r : ℚ) : (e.start t r).level = 1 := rfl
@[simp] lemma start_currentDropTime (t r : ℚ) :
    (e.start t r).currentDropTime = dropTimeFormula 1 := rfl

@[simp] lemma stop_score : (e.stop).score = e.score := rfl
@[simp] lemma stop_missCount : (e.stop).missCount = e.missCount := rfl
@[simp] lemma stop_isGameActive : (e.stop).isGameActive = false := rfl
@[simp] lemma stop_currentDropTime : (e.stop).currentDropTime = e.currentDropTime := rfl

@[simp] lemma setBasketPose_score (z : Zone) : (e.setBasketPose z).score = e.score := rfl
@[simp] lemma setBasketPose_missCount (z : Zone) :
    (e.setBasketPose z).missCount = e.missCount := rfl
@[simp] lemma setBasketPose_isGameActive (z : Zone) :
    (e.setBasketPose z).isGameActive = e.isGameActive := rfl
@[simp] lemma setBasketPose_currentDropTime (z : Zone) :
    (e.setBasketPose z).currentDropTime = e.currentDropTime := rfl

end FieldLemmas

lemma dropTimeFormula_ge (L : Nat) : (0.5 : ℚ) ≤ dropTimeFormula L :=
  le_max_left _ _

lemma dropTimeFormula_pos (L : Nat) : 0 < dropTimeFormula L :=
  lt_of_lt_of_le (by norm_num) (dropTimeFormula_ge L)

lemma handleMiss_score (e : Engine) : (e.handleMiss).score = e.score := by
  simp only [Engine.handleMiss]
  split <;> simp

lemma handleMiss_missCount (e : Engine) : (e.handleMiss).missCount = e.missCount + 1 := by
  simp only [Engine.handleMiss]
  split <;> simp

lemma handleMiss_currentDropTime (e : Engine) :
    (e.handleMiss).currentDropTime = e.currentDropTime := by
  simp only [Engine.handleMiss]
  split <;> simp

lemma handleMiss_active (e : Engine) (h : 2 ≤ e.missCount + 1) :
    (e.handleMiss).isGameActive = false := by
  simp only [Engine.handleMiss]
  split
  · simp
  · simp_all

lemma checkItem_spec (e : Engine) (it : Item) :
    (it.caught || it.processed) = true ∧ e.checkItem it = (e, it) ∨
    ((it.caught || it.processed) = false ∧ ((0.85 : ℚ) ≤ it.y ∧ it.y < 1) ∧
      it.zone = e.basketPosition ∧ it.type = ItemType.bomb ∧
      e.checkItem it = (e.gameOver bombReason, it)) ∨
    ((it.caught || it.processed) = false ∧ ((0.85 : ℚ) ≤ it.y ∧ it.y < 1) ∧
      it.zone = e.basketPosition ∧ it.type ≠ ItemType.bomb ∧
      e.checkItem it =
        (({ e with score := e.score + catchPoints it.type }).notifyChange,
          { it with caught := true })) ∨
    ((it.caught || it.processed) = false ∧ ((0.85 : ℚ) ≤ it.y ∧ it.y < 1) ∧
      it.zone ≠ e.basketPosition ∧ e.checkItem it = (e, it)) ∨
    ((it.caught || it.processed) = false ∧ ¬((0.85 : ℚ) ≤ it.y ∧ it.y < 1) ∧
      (1 : ℚ) ≤ it.y ∧ it.type = ItemType.bomb ∧
      e.checkItem it = (e, { it with processed := true })) ∨
    ((it.caught || it.processed) = false ∧ ¬((0.85 : ℚ) ≤ it.y ∧ it.y < 1) ∧
      (1 : ℚ) ≤ it.y ∧ it.type ≠ ItemType.bomb ∧
      e.checkItem it = (e.handleMiss, { it with processed := true })) ∨
    ((it.caught || it.processed) = false ∧ ¬((0.85 : ℚ) ≤ it.y ∧ it.y < 1) ∧
      it.y < 1 ∧ e.checkItem it = (e, it)) := by
  by_cases h1 : (it.caught || it.processed) = true
  · exact Or.inl ⟨h1, by simp [Engine.checkItem, h1]⟩
  · have h1' : (it.caught || it.processed) = false := by
      cases hb : (it.caught || it.processed) <;> simp_all
    by_cases h2 : (0.85 : ℚ) ≤ it.y ∧ it.y < 1
    · by_cases h3 : it.zone = e.basketPosition
      · by_cases h4 : it.type = ItemType.bomb
        · refine Or.inr (Or.inl ⟨h1', h2, h3, h4, ?_⟩)
          simp [Engine.checkItem, Engine.handleCatch, h1', h2, h3, h4]
        · refine Or.inr (Or.inr (Or.inl ⟨h1', h2, h3, h4, ?_⟩))
          simp [Engine.checkItem, Engine.handleCatch, h1', h2, h3, h4]
      · refine Or.inr (Or.inr (Or.inr (Or.inl ⟨h1', h2, h3, ?_⟩)))
        simp [Engine.checkItem, h1', h2, h3]
    · by_cases h5 : (1 : ℚ) ≤ it.y
      · by_cases h4 : it.type = ItemType.bomb
        · refine Or.inr (Or.inr (Or.inr (Or.inr (Or.inl ⟨h1', h2, h5, h4, ?_⟩))))
          simp [Engine.checkItem, h1', h2, h5, h4]
        · refine Or.inr (Or.inr (Or.inr (Or.inr (Or.inr (Or.inl ⟨h1', h2, h5, h4, ?_⟩)))))
          simp [Engine.checkItem, h1', h2, h5, h4]
      · refine Or.inr (Or.inr (Or.inr (Or.inr (Or.inr (Or.inr
          ⟨h1', h2, by linarith [not_le.mp h5], ?_⟩)))))
        simp [Engine.checkItem, h1', h2, h5]

lemma checkItem_score_le (e : Engine) (it : Item) :
    e.score ≤ (e.checkItem it).1.score := by
  rcases checkItem_spec e it with ⟨_, h⟩ | ⟨_, _, _, _, h⟩ | ⟨_, _, _, _, h⟩ |
    ⟨_, _, _, h⟩ | ⟨_, _, _, _, h⟩ | ⟨_, _, _, _, h⟩ | ⟨_, _, _, h⟩ <;>
    rw [h] <;> simp [handleMiss_score]

lemma checkItem_currentDropTime (e : Engine) (it : Item) :
    (e.checkItem it).1.currentDropTime = e.currentDropTime := by
  rcases checkItem_spec e it with ⟨_, h⟩ | ⟨_, _, _, _, h⟩ | ⟨_, _, _, _, h⟩ |
    ⟨_, _, _, h⟩ | ⟨_, _, _, _, h⟩ | ⟨_, _, _, _, h⟩ | ⟨_, _, _, h⟩ <;>
    rw [h] <;> simp [handleMiss_currentDropTime]

lemma checkItem_missInv (e : Engine) (it : Item)
    (h : 2 ≤ e.missCount → e.isGameActive = false) :
    2 ≤ (e.checkItem it).1.missCount → (e.checkItem it).1.isGameActive = false := by
  rcases checkItem_spec e it with ⟨_, heq⟩ | ⟨_, _, _, _, heq⟩ | ⟨_, _, _, _, heq⟩ |
    ⟨_, _, _, heq⟩ | ⟨_, _, _, _, heq⟩ | ⟨_, _, _, _, heq⟩ | ⟨_, _, _, heq⟩ <;> rw [heq]
  · exact h
  · simp
  · simpa using h
  · exact h
  · exact h
  · simpa [handleMiss_missCount] using fun h2 => handleMiss_active e h2
  · exact h

lemma checkCollisionsAux_score_le :
    ∀ (l : List Item) (e : Engine), e.score ≤ (Engine.checkCollisionsAux e l).1.score := by
  intro l
  induction l with
  | nil => intro e; exact le_refl _
  | cons it rest ih =>
      intro e
      simp only [Engine.checkCollisionsAux]
      exact le_trans (checkItem_score_le e it) (ih _)

lemma checkCollisionsAux_currentDropTime :
    ∀ (l : List Item) (e : Engine),
      (Engine.checkCollisionsAux e l).1.currentDropTime = e.currentDropTime := by
  intro l
  induction l with
  | nil => intro e; rfl
  | cons it rest ih =>
      intro e
      simp only [Engine.checkCollisionsAux]
      rw [ih, checkItem_currentDropTime]

lemma checkCollisionsAux_missInv :
    ∀ (l : List Item) (e : Engine),
      (2 ≤ e.missCount → e.isGameActive = false) →
      2 ≤ (Engine.checkCollisionsAux e l).1.missCount →
      (Engine.checkCollisionsAux e l).1.isGameActive = false := by
  intro l
  induction l with
  | nil => intro e h; exact h
  | cons it rest ih =>
      intro e h
      simp only [Engine.checkCollisionsAux]
      exact ih _ (checkItem_missInv e it h)

lemma checkCollisions_score_le (e : Engine) : e.score ≤ (e.checkCollisions).score := by
  simpa [Engine.checkCollisions] using checkCollisionsAux_score_le e.items e

lemma checkCollisions_currentDropTime (e : Engine) :
    (e.checkCollisions).currentDropTime = e.currentDropTime := by
  simpa [Engine.checkCollisions] using checkCollisionsAux_currentDropTime e.items e

lemma checkCollisions_missInv (e : Engine)
    (h : 2 ≤ e.missCount → e.isGameActive = false) :
    2 ≤ (e.checkCollisions).missCount → (e.checkCollisions).isGameActive = false := by
  simpa [Engine.checkCollisions] using checkCollisionsAux_missInv e.items e h

lemma updateCore_score_le (e : Engine) (t : ℚ) (inp : SpawnInput) :
    e.score ≤ (e.updateCore t inp).score := by
  simp only [Engine.updateCore]
  refine le_trans ?_ (checkCollisions_score_le _)
  split <;> split <;> simp

lemma updateCore_dropTime_pos (e : Engine) (t : ℚ) (inp : SpawnInput)
    (h : 0 < e.currentDropTime) : 0 < (e.updateCore t inp).currentDropTime := by
  simp only [Engine.updateCore]
  rw [checkCollisions_currentDropTime]
  split <;> split <;> simp [dropTimeFormula_pos, h]

lemma updateCore_missInv (e : Engine) (t : ℚ) (inp : SpawnInput)
    (h : 2 ≤ e.missCount → e.isGameActive = false) :
    2 ≤ (e.updateCore t inp).missCount → (e.updateCore t inp).isGameActive = false := by
  simp only [Engine.updateCore]
  refine checkCollisions_missInv _ ?_
  split <;> split <;> simpa using h

lemma update_score_le (e : Engine) (t : ℚ) (inp : SpawnInput) :
    e.score ≤ (e.update t inp).score := by
  simp only [Engine.update]
  split
  · simpa using updateCore_score_le e t inp
  · exact le_refl _

lemma update_dropTime_pos (e : Engine) (t : ℚ) (inp : SpawnInput)
    (h : 0 < e.currentDropTime) : 0 < (e.update t inp).currentDropTime := by
  simp only [Engine.update]
  split
  · simpa using updateCore_dropTime_pos e t inp h
  · exact h

lemma update_missInv (e : Engine) (t : ℚ) (inp : SpawnInput)
    (h : 2 ≤ e.missCount → e.isGameActive = false) :
    2 ≤ (e.update t inp).missCount → (e.update t inp).isGameActive = false := by
  simp only [Engine.update]
  split
  · simpa using updateCore_missInv e t inp h
  · exact h

lemma stepOp_dropTime_pos (e : Engine) (op : Op) (h : 0 < e.currentDropTime) :
    0 < (e.stepOp op).currentDropTime := by
  cases op with
  | start t r => simpa using dropTimeFormula_pos 1
  | stop => simpa using h
  | setPose z => simpa using h
  | update t inp => exact update_dropTime_pos e t inp h

lemma stepOp_missInv (e : Engine) (op : Op)
    (h : 2 ≤ e.missCount → e.isGameActive = false) :
    2 ≤ (e.stepOp op).missCount → (e.stepOp op).isGameActive = false := by
  cases op with
  | start t r => intro h2; simp [Engine.stepOp] at h2
  | stop => intro _; simp [Engine.stepOp]
  | setPose z => simpa using h
  | update t inp => exact update_missInv e t inp h

lemma foldl_dropTime_pos :
    ∀ (ops : List Op) (e : Engine), 0 < e.currentDropTime →
      0 < (List.foldl Engine.stepOp e ops).currentDropTime := by
  intro ops
  induction ops with
  | nil => intro e h; exact h
  | cons op rest ih =>
      intro e h
      simp only [List.foldl]
      exact ih _ (stepOp_dropTime_pos e op h)

lemma foldl_missInv :
    ∀ (ops : List Op) (e : Engine),
      (2 ≤ e.missCount → e.isGameActive = false) →
      2 ≤ (List.foldl Engine.stepOp e ops).missCount →
      (List.foldl Engine.stepOp e ops).isGameActive = false := by
  intro ops
  induction ops with
  | nil => intro e h; exact h
  | cons op rest ih =>
      intro e h
      simp only [List.foldl]
      exact ih _ (stepOp_missInv e op h)

lemma runOps_dropTime_pos (ops : List Op) : 0 < (runOps ops).currentDropTime :=
  foldl_dropTime_pos ops Engine.init (by norm_num [Engine.init])

lemma runOps_missInv (ops : List Op) :
    2 ≤ (runOps ops).missCount → (runOps ops).isGameActive = false :=
  foldl_missInv ops Engine.init (by intro h2; simp [Engine.init] at h2)

section CtorNeLemmas

@[simp] lemma apple_ne_bomb : ItemType.apple ≠ ItemType.bomb := by simp
@[simp] lemma pear_ne_bomb : ItemType.pear ≠ ItemType.bomb := by simp
@[simp] lemma orange_ne_bomb : ItemType.orange ≠ ItemType.bomb := by simp
@[simp] lemma left_ne_center : Zone.left ≠ Zone.center := by simp
@[simp] lemma left_ne_right : Zone.left ≠ Zone.right := by simp
@[simp] lemma center_ne_left : Zone.center ≠ Zone.left := by simp
@[simp] lemma center_ne_right : Zone.center ≠ Zone.right := by simp
@[simp] lemma right_ne_left : Zone.right ≠ Zone.left := by simp
@[simp] lemma right_ne_center : Zone.right ≠ Zone.center := by simp

end CtorNeLemmas

/-- Spawn draws producing an apple in the LEFT lane (typeRand 0.3 lands in the
apple band, zone index 0 is LEFT). -/
def appleSpawn : SpawnInput := { typeRand := 0.3, zoneIndex := 0, intervalRand := 0 }

/-- Spawn draws producing a bomb in the CENTER lane. -/
def bombSpawn : SpawnInput := { typeRand := 0.1, zoneIndex := 1, intervalRand := 0 }

/-- Spawn draws passed to ticks whose spawn check does not fire. -/
def idleSpawn : SpawnInput := { typeRand := 0.9, zoneIndex := 0, intervalRand := 0 }

/-- A concrete live item used by witnesses. -/
def sampleItem : Item :=
  { type := ItemType.apple, zone := Zone.left, y := 0.5, caught := false, processed := false }

/-- C9: stop() sets active to false, changes no other component of the state,
and is idempotent. -/
theorem stop_idempotent_C9 (e : Engine) :
    e.stop = { e with isGameActive := false } ∧ (e.stop).stop = e.stop :=
  ⟨rfl, rfl⟩

/-- C5: for every level L ≥ 1 the drop time recomputed after a level change (and at
start) equals max(0.5, 2.0 - (L-1)*0.2), is monotonically non-increasing in the
level, and lies in [0.5, 2.0]. -/
theorem drop_time_formula_C5 (L M : Nat) (e : Engine) (t r : ℚ)
    (hL : 1 ≤ L) (hLM : L ≤ M) :
    dropTimeFormula L = max 0.5 (2.0 - ((L : ℚ) - 1) * 0.2) ∧
    dropTimeFormula M ≤ dropTimeFormula L ∧
    (0.5 : ℚ) ≤ dropTimeFormula L ∧ dropTimeFormula L ≤ 2.0 ∧
    (e.levelUp).currentDropTime = dropTimeFormula (e.level + 1) ∧
    (e.start t r).currentDropTime = dropTimeFormula 1 := by
  have hc : (L : ℚ) ≤ (M : ℚ) := by exact_mod_cast hLM
  have h1 : (1 : ℚ) ≤ (L : ℚ) := by exact_mod_cast hL
  refine ⟨rfl, ?_, dropTimeFormula_ge L, ?_, by simp, by simp⟩
  · unfold dropTimeFormula
    exact max_le_max le_rfl (by linarith)
  · unfold dropTimeFormula
    exact max_le (by norm_num) (by linarith)

/-- C5 witness at levels 1 and 9. -/
theorem drop_time_formula_C5_witness :
    (1 ≤ 1 ∧ 1 ≤ 9) ∧
    (dropTimeFormula 1 = max 0.5 (2.0 - ((1 : ℚ) - 1) * 0.2) ∧
     dropTimeFormula 9 ≤ dropTimeFormula 1 ∧
     (0.5 : ℚ) ≤ dropTimeFormula 1 ∧ dropTimeFormula 1 ≤ 2.0 ∧
     (Engine.init.levelUp).currentDropTime = dropTimeFormula (Engine.init.level + 1) ∧
     (Engine.init.start 0 0).currentDropTime = dropTimeFormula 1) :=
  ⟨⟨by norm_num, by norm_num⟩,
    drop_time_formula_C5 1 9 Engine.init 0 0 (by norm_num) (by norm_num)⟩

/-- C7: a resolution step either leaves the score unchanged, or the item is a live
zone-matched fruit inside the catch window [0.85, 1.0), it is marked caught, and the
score grows by exactly its per-kind reward, which is 100, 150 or 200. -/
theorem catch_scoring_C7 (e : Engine) (it : Item) :
    (e.checkItem it).1.score = e.score ∨
    (it.caught = false ∧ it.processed = false ∧
      (0.85 : ℚ) ≤ it.y ∧ it.y < 1 ∧ it.zone = e.basketPosition ∧
      it.type ≠ ItemType.bomb ∧
      (e.checkItem it).1.score = e.score + catchPoints it.type ∧
      (catchPoints it.type = 100 ∨ catchPoints it.type = 150 ∨ catchPoints it.type = 200) ∧
      (e.checkItem it).2.caught = true) := by
  rcases checkItem_spec e it with ⟨_, h⟩ | ⟨_, _, _, _, h⟩ | ⟨hl, hw, hz, hb, h⟩ |
    ⟨_, _, _, h⟩ | ⟨_, _, _, _, h⟩ | ⟨_, _, _, _, h⟩ | ⟨_, _, _, h⟩
  · left; rw [h]
  · left; rw [h]; simp
  · right
    have hcp : it.caught = false ∧ it.processed = false := by
      cases hc : it.caught <;> cases hp : it.processed <;> simp_all
    refine ⟨hcp.1, hcp.2, hw.1, hw.2, hz, hb, by rw [h]; simp, ?_, by rw [h]⟩
    cases hty : it.type with
    | apple => simp [catchPoints]
    | pear => simp [catchPoints]
    | orange => simp [catchPoints]
    | bomb => exact absurd hty hb
  · left; rw [h]
  · left; rw [h]
  · left; rw [h]; simp [handleMiss_score]
  · left; rw [h]

/-- C10: the score never decreases within a session: resolution and update are
non-decreasing, stop/setBasketPose/levelUp preserve the score, start resets it to 0. -/
theorem score_monotone_C10 (e1 e : Engine) (it : Item) (t tS r : ℚ)
    (inp : SpawnInput) (z : Zone) :
    e1.score ≤ (e1.checkItem it).1.score ∧
    e.score ≤ (e.update t inp).score ∧
    (e.stop).score = e.score ∧
    (e.setBasketPose z).score = e.score ∧
    (e.levelUp).score = e.score ∧
    (e.start tS r).score = 0 :=
  ⟨checkItem_score_le e1 it, update_score_le e t inp, rfl, rfl, rfl, rfl⟩

/-- C6: the motion step sends each item's y to y + dt * (1/currentDropTime); with a
nonnegative dt and a positive drop time no y decreases, and every reachable engine
state keeps currentDropTime positive. -/
theorem motion_step_C6 (d dt : ℚ) (l : List Item) (i : Nat) (ops : List Op)
    (hd : 0 < d) (hdt : 0 ≤ dt) (hi : i < l.length)
    (hj : i < (moveItems d dt l).length) :
    ((moveItems d dt l).get ⟨i, hj⟩).y = (l.get ⟨i, hi⟩).y + dt * (1 / d) ∧
    (l.get ⟨i, hi⟩).y ≤ ((moveItems d dt l).get ⟨i, hj⟩).y ∧
    (moveItems d dt l).length = l.length ∧
    0 < (runOps ops).currentDropTime := by
  have key : (moveItems d dt l).get ⟨i, hj⟩ =
      { l.get ⟨i, hi⟩ with y := (l.get ⟨i, hi⟩).y + 1 / d * dt } := by
    simp [moveItems, List.get_eq_getElem]
  have hnn : 0 ≤ 1 / d * dt := mul_nonneg (by positivity) hdt
  refine ⟨?_, ?_, by simp [moveItems], runOps_dropTime_pos ops⟩
  · rw [key]
    show (l.get ⟨i, hi⟩).y + 1 / d * dt = (l.get ⟨i, hi⟩).y + dt * (1 / d)
    ring
  · rw [key]
    show (l.get ⟨i, hi⟩).y ≤ (l.get ⟨i, hi⟩).y + 1 / d * dt
    linarith

/-- C6 witness: one item, drop time 2, dt 1. -/
theorem motion_step_C6_witness :
    (0 : ℚ) < 2 ∧ (0 : ℚ) ≤ 1 ∧ 0 < ([sampleItem] : List Item).length ∧
    0 < (moveItems 2 1 [sampleItem]).length ∧
    (((moveItems 2 1 [sampleItem]).get ⟨0, by decide⟩).y =
        (([sampleItem] : List Item).get ⟨0, by decide⟩).y + 1 * (1 / 2) ∧
      (([sampleItem] : List Item).get ⟨0, by decide⟩).y ≤
        ((moveItems 2 1 [sampleItem]).get ⟨0, by decide⟩).y ∧
      (moveItems 2 1 [sampleItem]).length = ([sampleItem] : List Item).length ∧
      0 < (runOps []).currentDropTime) :=
  ⟨by norm_num, by norm_num, by decide, by decide,
    motion_step_C6 2 1 [sampleItem] 0 [] (by norm_num) (by norm_num)
      (by decide) (by decide)⟩

/-- C3 amended theorem: in every reachable engine state, missCount ≥ 2 implies the
engine is inactive (reaching 2 does trigger game-over, but a single tick may push
missCount above 2). -/
theorem miss_count_two_implies_inactive_C3 (ops : List Op)
    (h : 2 ≤ (runOps ops).missCount) : (runOps ops).isGameActive = false :=
  runOps_missInv ops h

/-- Operation sequence missing two fruits in two separate ticks. -/
def missTwoOps : List Op :=
  [Op.start 0 0, Op.update 2000 appleSpawn, Op.update 4000 appleSpawn]

/-- C3 witness: after two misses the state has missCount 2 and is inactive. -/
theorem miss_count_two_implies_inactive_C3_witness :
    2 ≤ (runOps missTwoOps).missCount ∧ (runOps missTwoOps).isGameActive = false :=
  ⟨by norm_num [runOps, missTwoOps, appleSpawn, Engine.init, Engine.stepOp, Engine.start,
      Engine.reset, Engine.update, Engine.updateCore, Engine.updateDropTime,
      Engine.scheduleNextSpawn, Engine.spawnItem, Engine.levelUp, Engine.checkCollisions,
      Engine.checkCollisionsAux, Engine.checkItem, Engine.handleCatch, Engine.handleMiss,
      Engine.gameOver, Engine.notifyChange, moveItems, removeOffscreen, dropTimeFormula,
      getRandomItemType, zoneOfIndex, max_def],
    miss_count_two_implies_inactive_C3 missTwoOps
      (by norm_num [runOps, missTwoOps, appleSpawn, Engine.init, Engine.stepOp, Engine.start,
        Engine.reset, Engine.update, Engine.updateCore, Engine.updateDropTime,
        Engine.scheduleNextSpawn, Engine.spawnItem, Engine.levelUp, Engine.checkCollisions,
        Engine.checkCollisionsAux, Engine.checkItem, Engine.handleCatch, Engine.handleMiss,
        Engine.gameOver, Engine.notifyChange, moveItems, removeOffscreen, dropTimeFormula,
        getRandomItemType, zoneOfIndex, max_def])⟩

/-- Operation sequence in which three unresolved fruits cross y = 1.0 in the same
final tick: apples spawned at 1201, 2402 and 4403 ms in the unmatched LEFT lane sit
at y = 0.601, 0.6005 and 0 before the last tick, whose dt of 2.001 s pushes all
three past 1.0 at once. -/
def missThreeOps : List Op :=
  [Op.start 0 0, Op.update 1200 idleSpawn, Op.update 1201 appleSpawn,
   Op.update 2402 appleSpawn, Op.update 4403 appleSpawn]

/-- C3 counterexample: a reachable state whose missCount is 3, so the resolution of
one tick can push missCount beyond the claimed cap of 2. -/
theorem miss_count_exceeds_two_cex : (runOps missThreeOps).missCount = 3 := by
  norm_num [runOps, missThreeOps, appleSpawn, idleSpawn, Engine.init, Engine.stepOp,
    Engine.start, Engine.reset, Engine.update, Engine.updateCore, Engine.updateDropTime,
    Engine.scheduleNextSpawn, Engine.spawnItem, Engine.levelUp, Engine.checkCollisions,
    Engine.checkCollisionsAux, Engine.checkItem, Engine.handleCatch, Engine.handleMiss,
    Engine.gameOver, Engine.notifyChange, moveItems, removeOffscreen, dropTimeFormula,
    getRandomItemType, zoneOfIndex, max_def]

section GameEndCountLemmas

@[simp] lemma gameEndCount_nil : gameEndCount [] = 0 := rfl

@[simp] lemma gameEndCount_append (l1 l2 : List Event) :
    gameEndCount (l1 ++ l2) = gameEndCount l1 + gameEndCount l2 := by
  simp [gameEndCount, List.filter_append]

@[simp] lemma gameEndCount_change (a b c : Nat) : gameEndCount [Event.change a b c] = 0 := rfl

@[simp] lemma gameEndCount_gameEnd (a b : Nat) (r : String) :
    gameEndCount [Event.gameEnd a b r] = 1 := rfl

end GameEndCountLemmas

lemma handleMiss_events (e : Engine) :
    (e.handleMiss).events =
      e.events ++ [Event.change e.score e.level (e.missCount + 1)] ++
        (if 1 ≤ e.missCount then [Event.gameEnd e.score e.level missReason] else []) := by
  simp only [Engine.handleMiss, Engine.notifyChange, Engine.gameOver]
  split
  next h =>
    rw [if_pos (show 1 ≤ e.missCount by omega)]
  next h =>
    rw [if_neg (show ¬1 ≤ e.missCount by omega)]
    simp

lemma handleMiss_isGameActive_of_zero (e : Engine) (h0 : e.missCount = 0) :
    (e.handleMiss).isGameActive = e.isGameActive := by
  simp only [Engine.handleMiss, Engine.notifyChange, Engine.gameOver]
  split
  next h => exfalso; omega
  next h => rfl

/-- C1 amended: a live zone-matched BOMB inside the catch window [0.85, 1.0)
triggers terminal game-over (active becomes false, onGameEnd fires with the bomb
reason), but the item itself is returned unchanged — it is NOT marked caught. -/
theorem bomb_catch_game_over_C1 (e : Engine) (it : Item)
    (hc : it.caught = false) (hp : it.processed = false)
    (h1 : (0.85 : ℚ) ≤ it.y) (h2 : it.y < 1)
    (hz : it.zone = e.basketPosition) (ht : it.type = ItemType.bomb) :
    e.checkItem it =
      ({ e with
          isGameActive := false
          events := e.events ++ [Event.gameEnd e.score e.level bombReason] }, it) := by
  simp [Engine.checkItem, Engine.handleCatch, Engine.gameOver, hc, hp, h1, h2, hz, ht]

/-- Concrete zone-matched bomb inside the catch window. -/
def bombWItem : Item :=
  { type := ItemType.bomb, zone := Zone.center, y := 0.9, caught := false, processed := false }

/-- Active engine with the basket in the CENTER lane. -/
def bombWEngine : Engine := { Engine.init with isGameActive := true }

/-- C1 witness: the amended behaviour at a concrete matched bomb. -/
theorem bomb_catch_game_over_C1_witness :
    bombWItem.caught = false ∧ bombWItem.processed = false ∧
    (0.85 : ℚ) ≤ bombWItem.y ∧ bombWItem.y < 1 ∧
    bombWItem.zone = bombWEngine.basketPosition ∧ bombWItem.type = ItemType.bomb ∧
    bombWEngine.checkItem bombWItem =
      ({ bombWEngine with
          isGameActive := false
          events := bombWEngine.events ++
            [Event.gameEnd bombWEngine.score bombWEngine.level bombReason] }, bombWItem) :=
  ⟨rfl, rfl, by norm_num [bombWItem], by norm_num [bombWItem], rfl, rfl,
    bomb_catch_game_over_C1 bombWEngine bombWItem rfl rfl (by norm_num [bombWItem])
      (by norm_num [bombWItem]) rfl rfl⟩

/-- C1 counterexample: at this concrete zone-matched bomb inside the catch window
the resolution does end the game, yet the item's caught flag stays false — refuting
the claim that the item is marked caught. -/
theorem bomb_catch_leaves_item_uncaught_cex :
    bombWItem.type = ItemType.bomb ∧ bombWItem.zone = bombWEngine.basketPosition ∧
    (0.85 : ℚ) ≤ bombWItem.y ∧ bombWItem.y < 1 ∧
    bombWItem.caught = false ∧ bombWItem.processed = false ∧
    (bombWEngine.checkItem bombWItem).1.isGameActive = false ∧
    (bombWEngine.checkItem bombWItem).2.caught = false := by
  refine ⟨rfl, rfl, by norm_num [bombWItem], by norm_num [bombWItem], rfl, rfl, ?_, ?_⟩ <;>
    norm_num [bombWEngine, bombWItem, Engine.init, Engine.checkItem, Engine.handleCatch,
      Engine.gameOver]

/-- C4: a live fruit at y ≥ 1.0 is missed: missCount increments by exactly one, the
item is marked processed and is inert in any later resolution, a change
notification fires, and when this is the second miss (missCount was already 1) the
game ends with the missed-fruits reason; a first miss leaves activity unchanged. -/
theorem fruit_miss_resolution_C4 (e e2 : Engine) (it : Item)
    (hc : it.caught = false) (hp : it.processed = false)
    (hy : (1 : ℚ) ≤ it.y) (hb : it.type ≠ ItemType.bomb) :
    (e.checkItem it).1.missCount = e.missCount + 1 ∧
    (e.checkItem it).2 = { it with processed := true } ∧
    (e.checkItem it).1.events =
      e.events ++ [Event.change e.score e.level (e.missCount + 1)] ++
        (if 1 ≤ e.missCount then [Event.gameEnd e.score e.level missReason] else []) ∧
    (1 ≤ e.missCount → (e.checkItem it).1.isGameActive = false) ∧
    (e.missCount = 0 → (e.checkItem it).1.isGameActive = e.isGameActive) ∧
    e2.checkItem ((e.checkItem it).2) = (e2, (e.checkItem it).2) := by
  have hnw : ¬((0.85 : ℚ) ≤ it.y ∧ it.y < 1) := by
    rintro ⟨_, h⟩
    linarith
  have hstep : e.checkItem it = (e.handleMiss, { it with processed := true }) := by
    simp [Engine.checkItem, hc, hp, hnw, hy, hb]
  rw [hstep]
  refine ⟨handleMiss_missCount e, rfl, handleMiss_events e, ?_, ?_, ?_⟩
  · intro h6
    exact handleMiss_active e (by omega)
  · intro h0
    exact handleMiss_isGameActive_of_zero e h0
  · simp [Engine.checkItem]

/-- Active engine that has already missed one fruit. -/
def missWEngine : Engine := { Engine.init with isGameActive := true, missCount := 1 }

/-- A live apple that has fallen past y = 1.0 unmatched. -/
def missWItem : Item :=
  { type := ItemType.apple, zone := Zone.left, y := 1, caught := false, processed := false }

/-- C4 witness: the second fruit miss at a concrete input. -/
theorem fruit_miss_resolution_C4_witness :
    missWItem.caught = false ∧ missWItem.processed = false ∧
    (1 : ℚ) ≤ missWItem.y ∧ missWItem.type ≠ ItemType.bomb ∧
    ((missWEngine.checkItem missWItem).1.missCount = missWEngine.missCount + 1 ∧
     (missWEngine.checkItem missWItem).2 = { missWItem with processed := true } ∧
     (missWEngine.checkItem missWItem).1.events =
       missWEngine.events ++
         [Event.change missWEngine.score missWEngine.level (missWEngine.missCount + 1)] ++
         (if 1 ≤ missWEngine.missCount then
            [Event.gameEnd missWEngine.score missWEngine.level missReason]
          else []) ∧
     (1 ≤ missWEngine.missCount →
       (missWEngine.checkItem missWItem).1.isGameActive = false) ∧
     (missWEngine.missCount = 0 →
       (missWEngine.checkItem missWItem).1.isGameActive = missWEngine.isGameActive) ∧
     Engine.init.checkItem ((missWEngine.checkItem missWItem).2) =
       (Engine.init, (missWEngine.checkItem missWItem).2)) :=
  ⟨rfl, rfl, by norm_num [missWItem], by simp [missWItem],
    fruit_miss_resolution_C4 missWEngine Engine.init missWItem rfl rfl
      (by norm_num [missWItem]) (by simp [missWItem])⟩

@[simp] lemma gameEndCount_cons_change (a b c : Nat) (l : List Event) :
    gameEndCount (Event.change a b c :: l) = gameEndCount l := by
  simp [gameEndCount, List.filter_cons]

@[simp] lemma gameEndCount_cons_gameEnd (a b : Nat) (r : String) (l : List Event) :
    gameEndCount (Event.gameEnd a b r :: l) = gameEndCount l + 1 := by
  simp [gameEndCount, List.filter_cons]

/-- C8: when the engine is active, the items after update are exactly the items
after collision resolution filtered by y ≤ 1.2 and not caught; the filter is
order-preserving (a sublist) and removes precisely the items with y > 1.2 or
caught = true, so no live item with y > 1.2 or caught survives a tick. -/
theorem garbage_collection_C8 (e : Engine) (t : ℚ) (inp : SpawnInput)
    (x it2 : Item) (l : List Item)
    (h : e.isGameActive = true) (hx : x ∈ (e.update t inp).items) :
    (e.update t inp).items = removeOffscreen (e.updateCore t inp).items ∧
    x.y ≤ 1.2 ∧ x.caught = false ∧
    (removeOffscreen l).Sublist l ∧
    (it2 ∈ removeOffscreen l ↔ it2 ∈ l ∧ ¬(1.2 < it2.y ∨ it2.caught = true)) := by
  have hupd : (e.update t inp).items = removeOffscreen (e.updateCore t inp).items := by
    simp [Engine.update, h]
  rw [hupd] at hx
  simp only [removeOffscreen, List.mem_filter, Bool.and_eq_true, decide_eq_true_eq,
    Bool.not_eq_true'] at hx
  refine ⟨hupd, hx.2.1, hx.2.2, List.filter_sublist _, ?_⟩
  simp only [removeOffscreen, List.mem_filter, Bool.and_eq_true, decide_eq_true_eq,
    Bool.not_eq_true', not_or, not_lt]
  constructor
  · rintro ⟨hm, hy, hcaught⟩
    exact ⟨hm, hy, by simp [hcaught]⟩
  · rintro ⟨hm, hy, hcaught⟩
    exact ⟨hm, hy, by simpa using hcaught⟩

/-- Active engine holding one mid-air item, with the next spawn still pending. -/
def gcWEngine : Engine :=
  { Engine.init with
    isGameActive := true
    nextSpawnInterval := 1000
    items := [sampleItem] }

/-- C8 witness at a concrete active tick that keeps its single item. -/
theorem garbage_collection_C8_witness :
    gcWEngine.isGameActive = true ∧
    sampleItem ∈ (gcWEngine.update 0 idleSpawn).items ∧
    ((gcWEngine.update 0 idleSpawn).items =
        removeOffscreen (gcWEngine.updateCore 0 idleSpawn).items ∧
      sampleItem.y ≤ 1.2 ∧ sampleItem.caught = false ∧
      (removeOffscreen [sampleItem]).Sublist [sampleItem] ∧
      (sampleItem ∈ removeOffscreen [sampleItem] ↔
        sampleItem ∈ [sampleItem] ∧ ¬(1.2 < sampleItem.y ∨ sampleItem.caught = true))) :=
  ⟨rfl,
    by norm_num [gcWEngine, sampleItem, idleSpawn, Engine.init, Engine.update,
      Engine.updateCore, Engine.updateDropTime, Engine.scheduleNextSpawn, Engine.spawnItem,
      Engine.levelUp, Engine.checkCollisions, Engine.checkCollisionsAux, Engine.checkItem,
      Engine.handleCatch, Engine.handleMiss, Engine.gameOver, Engine.notifyChange,
      moveItems, removeOffscreen, dropTimeFormula, getRandomItemType, zoneOfIndex, max_def],
    garbage_collection_C8 gcWEngine 0 idleSpawn sampleItem sampleItem [sampleItem] rfl
      (by norm_num [gcWEngine, sampleItem, idleSpawn, Engine.init, Engine.update,
        Engine.updateCore, Engine.updateDropTime, Engine.scheduleNextSpawn, Engine.spawnItem,
        Engine.levelUp, Engine.checkCollisions, Engine.checkCollisionsAux, Engine.checkItem,
        Engine.handleCatch, Engine.handleMiss, Engine.gameOver, Engine.notifyChange,
        moveItems, removeOffscreen, dropTimeFormula, getRandomItemType, zoneOfIndex,
        max_def])⟩

/-- C2 amended: one item resolution appends exactly one onGameEnd event when it is a
game-ending trigger — a live zone-matched bomb inside the catch window, or a live
fruit miss with missCount already at least 1 — and none otherwise; several triggers
resolved in the same tick therefore each fire onGameEnd once. -/
theorem game_end_per_trigger_C2 (e : Engine) (it : Item) :
    gameEndCount (e.checkItem it).1.events =
      gameEndCount e.events +
        (if it.caught = false ∧ it.processed = false ∧
            (((0.85 : ℚ) ≤ it.y ∧ it.y < 1) ∧ it.zone = e.basketPosition ∧
                it.type = ItemType.bomb ∨
              ¬((0.85 : ℚ) ≤ it.y ∧ it.y < 1) ∧ (1 : ℚ) ≤ it.y ∧
                it.type ≠ ItemType.bomb ∧ 1 ≤ e.missCount)
          then 1 else 0) := by
  rcases checkItem_spec e it with ⟨hcp, heq⟩ | ⟨hl, hw, hz, hb, heq⟩ |
    ⟨hl, hw, hz, hb, heq⟩ | ⟨hl, hw, hz, heq⟩ | ⟨hl, hnw, hy1, hb, heq⟩ |
    ⟨hl, hnw, hy1, hb, heq⟩ | ⟨hl, hnw, hylt, heq⟩
  · rw [heq, if_neg]
    · simp
    · rintro ⟨hcf, hpf, _⟩
      rw [hcf, hpf] at hcp
      simp at hcp
  · have hcf : it.caught = false := by cases hcb : it.caught <;> simp_all
    have hpf : it.processed = false := by cases hpb : it.processed <;> simp_all
    rw [heq, if_pos ⟨hcf, hpf, Or.inl ⟨hw, hz, hb⟩⟩]
    simp [Engine.gameOver]
  · rw [heq, if_neg]
    · simp [Engine.notifyChange]
    · rintro ⟨_, _, ⟨_, _, hb'⟩ | ⟨hnw', _, _, _⟩⟩
      · exact hb hb'
      · exact hnw' hw
  · rw [heq, if_neg]
    · simp
    · rintro ⟨_, _, ⟨_, hz', _⟩ | ⟨hnw', _, _, _⟩⟩
      · exact hz hz'
      · exact hnw' hw
  · rw [heq, if_neg]
    · simp
    · rintro ⟨_, _, ⟨hw', _, _⟩ | ⟨_, _, hb', _⟩⟩
      · exact hnw hw'
      · exact hb' hb
  · have hcf : it.caught = false := by cases hcb : it.caught <;> simp_all
    have hpf : it.processed = false := by cases hpb : it.processed <;> simp_all
    rw [heq]
    by_cases hmc : 1 ≤ e.missCount
    · rw [if_pos ⟨hcf, hpf, Or.inr ⟨hnw, hy1, hb, hmc⟩⟩]
      simp [handleMiss_events, if_pos hmc]
    · rw [if_neg]
      · simp [handleMiss_events, if_neg hmc]
      · rintro ⟨_, _, ⟨hw', _, _⟩ | ⟨_, _, _, hmc'⟩⟩
        · exact hnw hw'
        · exact hmc hmc'
  · rw [heq, if_neg]
    · simp
    · rintro ⟨_, _, ⟨hw', _, _⟩ | ⟨_, hy1', _, _⟩⟩
      · exact hnw hw'
      · linarith

/-- Operation sequence: one session whose final tick has two live zone-matched
bombs inside the catch window (spawned at 1201 and 2402 ms into the CENTER lane,
sitting at y = 0.901 and 0.9005 after the final 0.6 s tick). -/
def twoBombOps : List Op :=
  [Op.start 0 0, Op.update 1200 idleSpawn, Op.update 1201 bombSpawn,
   Op.update 2402 bombSpawn, Op.update 3002 idleSpawn]

/-- C2 counterexample: a single session (one start call) in which onGameEnd fires
twice — both bombs are resolved in the same tick and each calls gameOver. -/
theorem double_game_end_cex : gameEndCount (runOps twoBombOps).events = 2 := by
  norm_num [runOps, twoBombOps, bombSpawn, idleSpawn, Engine.init, Engine.stepOp,
    Engine.start, Engine.reset, Engine.update, Engine.updateCore, Engine.updateDropTime,
    Engine.scheduleNextSpawn, Engine.spawnItem, Engine.levelUp, Engine.checkCollisions,
    Engine.checkCollisionsAux, Engine.checkItem, Engine.handleCatch, Engine.handleMiss,
    Engine.gameOver, Engine.notifyChange, moveItems, removeOffscreen, dropTimeFormula,
    getRandomItemType, zoneOfIndex, max_def, gameEndCount]
